import Mathlib

/-!
Verification of the core of the solar-energy estimation app (`src/app.py`).

The numeric helpers are shallowly embedded over an exact linear ordered field
(`ℚ` where the claims are decidable, `ℝ` where trigonometry is involved);
Python's float arithmetic is idealised as exact arithmetic.  The two external
gateways are embedded as pure functions of the outcome of the HTTP exchange
(a `Fetch` value: either a parsed payload or one of the failure modes that
raise inside the `try` block).  CSV persistence is embedded as explicit state
passing of an optional snapshot.
-/

/-- Python's `round(x, n)` rounds half to even (banker's rounding); this is the
integer-valued core, idealised over exact arithmetic. -/
def roundHalfEven {α : Type} [LinearOrderedField α] [FloorRing α] (x : α) : ℤ :=
  if x - ⌊x⌋ < 1 / 2 then ⌊x⌋
  else if 1 / 2 < x - ⌊x⌋ then ⌊x⌋ + 1
  else if ⌊x⌋ % 2 = 0 then ⌊x⌋ else ⌊x⌋ + 1

/-- Python's `round(x, ndigits)` for a nonnegative digit count. -/
def roundTo {α : Type} [LinearOrderedField α] [FloorRing α] (ndigits : ℕ) (x : α) : α :=
  ((roundHalfEven (x * 10 ^ ndigits) : ℤ) : α) / 10 ^ ndigits

/-- `SOLAR_CONSTANT = 1367` (W/m²), from `src/app.py`. -/
def SOLAR_CONSTANT : ℕ := 1367

/-- `solar_intensity(cloud_cover)` from `src/app.py`:
`round(SOLAR_CONSTANT * (1 - cloud_cover / 100), 2)`. -/
def solar_intensity {α : Type} [LinearOrderedField α] [FloorRing α] (cloud_cover : α) : α :=
  roundTo 2 ((SOLAR_CONSTANT : α) * (1 - cloud_cover / 100))

/-- `calculate_energy(intensity, daylight)` from `src/app.py`:
`round((intensity * daylight * 3600) / 1_000_000, 2)`. -/
def calculate_energy {α : Type} [LinearOrderedField α] [FloorRing α]
    (intensity daylight : α) : α :=
  roundTo 2 (intensity * daylight * 3600 / 1000000)

/-- `math.radians`: degrees to radians. -/
noncomputable def radians (x : ℝ) : ℝ := x * Real.pi / 180

/-- `declination_angle(n)` from `src/app.py`:
`23.45 * math.sin(math.radians(360 * (284 + n) / 365))`. -/
noncomputable def declination_angle (n : ℕ) : ℝ :=
  23.45 * Real.sin (radians (360 * (284 + (n : ℝ)) / 365))

/-- `daylight_hours(latitude, decl)` from `src/app.py`.  `math.acos` raises
`ValueError` exactly when its argument lies outside `[-1, 1]`; the source
catches that and returns `0`, which the embedding renders as the `if` branch. -/
noncomputable def daylight_hours (latitude decl : ℝ) : ℝ :=
  if -(Real.tan (radians latitude) * Real.tan (radians decl)) < -1 ∨
      1 < -(Real.tan (radians latitude) * Real.tan (radians decl)) then 0
  else 2 * Real.arccos (-(Real.tan (radians latitude) * Real.tan (radians decl))) * 180 /
    Real.pi / 15

/-- The distinct ways the `try` block of a gateway can fail: transport error,
timeout, non-success HTTP status (`raise_for_status`), malformed payload
(`res.json()` raising).  The source's `except Exception` catches all of them. -/
inductive FailKind where
  | transport
  | timeout
  | badStatus
  | malformed
deriving DecidableEq

/-- Outcome of one external HTTP exchange: a parsed payload, or a failure. -/
inductive Fetch (α : Type) where
  | success : α → Fetch α
  | failure : FailKind → Fetch α
deriving DecidableEq

/-- The fields of the open-meteo JSON payload that `get_weather_data_cached`
reads: `current_weather.temperature` and `hourly.cloudcover`; `none` models an
absent key (Python `dict.get` default). -/
structure WeatherPayload where
  temperature : Option ℚ
  cloudcover : Option (List ℚ)
deriving DecidableEq

/-- The body of the `try` block of `get_weather_data_cached` in `src/app.py`:
`temp = data.get("current_weather", {}).get("temperature", 25)`,
`clouds_list = data.get("hourly", {}).get("cloudcover", [0])`,
`clouds = sum(clouds_list)/len(clouds_list) if clouds_list else 0`. -/
def fetch_weather_body (res : Fetch WeatherPayload) : Except FailKind (ℚ × ℚ) :=
  match res with
  | .failure k => .error k
  | .success data =>
    let temp := data.temperature.getD 25
    let clouds_list := data.cloudcover.getD [0]
    let clouds : ℚ := if clouds_list.isEmpty then 0 else clouds_list.sum / clouds_list.length
    .ok (temp, clouds)

/-- `get_weather_data_cached` from `src/app.py`: the `try` body with the
catch-all `except Exception: return 25, 0` fallback. -/
def get_weather_data_cached (res : Fetch WeatherPayload) : ℚ × ℚ :=
  match fetch_weather_body res with
  | .error _ => (25, 0)
  | .ok v => v

/-- The optional `address` fields of the nominatim reverse-geocoding payload
that `get_region_name_from_coords_cached` reads. -/
structure Address where
  city : Option String
  town : Option String
  village : Option String
  state : Option String
deriving DecidableEq

/-- Python's `x or y` for `x` an optional string: `y` when `x` is `None` or
the empty string (falsy), else the string itself. -/
def pyStrOr (a : Option String) (b : String) : String :=
  match a with
  | none => b
  | some s => if s = "" then b else s

/-- The body of the `try` block of `get_region_name_from_coords_cached`:
`addr.get("city") or addr.get("town") or addr.get("village") or
addr.get("state") or "Unknown"`. -/
def fetch_region_body (res : Fetch Address) : Except FailKind String :=
  match res with
  | .failure k => .error k
  | .success addr =>
    .ok (pyStrOr addr.city (pyStrOr addr.town (pyStrOr addr.village
      (pyStrOr addr.state "Unknown"))))

/-- `get_region_name_from_coords_cached` from `src/app.py`: the `try` body
with the catch-all `except Exception: return "Unknown"` fallback. -/
def get_region_name_from_coords_cached (res : Fetch Address) : String :=
  match fetch_region_body res with
  | .error _ => "Unknown"
  | .ok v => v

/-- Collapse a present-but-empty string field to an absent one. -/
def blankToNone (a : Option String) : Option String :=
  match a with
  | none => none
  | some s => if s = "" then none else some s

/-- One parsed region of the catalog (`{"region": ..., "latitude": float(...),
"longitude": float(...)}`). -/
structure RegionEntry where
  region : String
  latitude : ℚ
  longitude : ℚ
deriving DecidableEq

/-- One raw CSV row as `csv.DictReader` yields it: each required column either
present with a string value or missing (`none`). -/
structure RawRow where
  region : Option String
  latitude : Option String
  longitude : Option String
deriving DecidableEq

/-- The `try` body of the row loop of `read_regions`: build the entry, where a
missing field or a latitude/longitude on which the float parser fails raises
(modelled as `none`); `p` models Python's `float` builtin. -/
def parseRow (p : String → Option ℚ) (row : RawRow) : Option RegionEntry :=
  match row.region, row.latitude.bind p, row.longitude.bind p with
  | some n, some la, some lo => some { region := n, latitude := la, longitude := lo }
  | _, _, _ => none

/-- `read_regions` from `src/app.py`: `none` as source models a non-existing
file (`os.path.exists` false); a row whose parse raises is skipped
(`except Exception: continue`). -/
def read_regions (p : String → Option ℚ) (source : Option (List RawRow)) : List RegionEntry :=
  match source with
  | none => []
  | some rows => rows.filterMap (parseRow p)

/-- One row of the results DataFrame built by `process_and_save_top_regions`. -/
structure RankRow where
  region : String
  date : String
  time : String
  temp : ℝ
  cloud : ℝ
  intensity : ℝ
  daylight : ℝ
  energy : ℝ

/-- The (total, transitive) energy-descending preorder the ranking sorts by. -/
def rE (a b : RankRow) : Prop := b.energy ≤ a.energy

noncomputable instance : DecidableRel rE :=
  fun a b => inferInstanceAs (Decidable (b.energy ≤ a.energy))

instance : IsTotal RankRow rE := ⟨fun a b => le_total b.energy a.energy⟩

instance : IsTrans RankRow rE := ⟨fun _ _ _ h1 h2 => le_trans h2 h1⟩

/-- numpy's argsort with the default `kind='quicksort'` (an introsort) runs
plain insertion sort on arrays of at most 16 elements; through pandas'
`nargsort` double reversal this gives the stable energy-descending order.
This function is the faithful model of `df.sort_values(by='energy',
ascending=False)` only in that small regime. -/
noncomputable def npySmallSort (l : List RankRow) : List RankRow :=
  List.insertionSort rE l

/-- What pandas/numpy document for `sort_values(ascending=False)` with the
default `kind='quicksort'` at every length: the result is an
energy-descending permutation of the input.  Stability is deliberately not
part of this contract — numpy documents quicksort as unstable. -/
def SortsByEnergyDesc (s : List RankRow → List RankRow) : Prop :=
  (∀ l, List.Perm (s l) l) ∧ (∀ l, List.Pairwise rE (s l))

/-- The implementation fact on top of the documented contract: on inputs of
at most 16 rows numpy's quicksort is insertion sort, so the sorter agrees
with the stable `npySmallSort` there. -/
def InsertionSortOnSmall (s : List RankRow → List RankRow) : Prop :=
  ∀ l, l.length ≤ 16 → s l = npySmallSort l

/-- A sorter satisfying everything pandas/numpy promise (`SortsByEnergyDesc`
and `InsertionSortOnSmall`) that, like numpy's introsort above 16 elements
(whose median-of-3 pivot swaps scramble equal elements), is not stable on
larger inputs: there it sorts the reversed list, so ties come out reversed. -/
noncomputable def revTieSort (l : List RankRow) : List RankRow :=
  if l.length ≤ 16 then npySmallSort l else npySmallSort l.reverse

/-- The rows of `l` holding a given energy value, in order. -/
noncomputable def energyFilter (e : ℝ) (l : List RankRow) : List RankRow :=
  l.filter (fun row => row.energy = e)

/-- The loop body of `process_and_save_top_regions`: one result row for one
catalog entry.  `weather` models `get_weather_data_cached` (the external
service plus cache), applied to the 4-decimal-rounded coordinates exactly as
`get_weather_data` does. -/
noncomputable def computeRow (weather : ℝ → ℝ → ℝ × ℝ) (decl : ℝ) (today now : String)
    (r : RegionEntry) : RankRow :=
  let lat : ℝ := (r.latitude : ℝ)
  let lon : ℝ := (r.longitude : ℝ)
  let tc := weather (roundTo 4 lat) (roundTo 4 lon)
  let daylight := daylight_hours lat decl
  let intensity := solar_intensity tc.2
  let energy := calculate_energy intensity daylight
  { region := r.region, date := today, time := now, temp := tc.1, cloud := roundTo 2 tc.2,
    intensity := intensity, daylight := roundTo 2 daylight, energy := energy }

/-- `process_and_save_top_regions` from `src/app.py`.  The wall clock is
passed in as `day` (day-of-year), `today` and `now`; the persisted snapshot
file is passed in and out explicitly (`prev` is its previous content, `none`
if it does not exist).  Note the source writes the file only inside
`if not df.empty`.  Like the weather service, the sort of
`df.sort_values(by='energy', ascending=False)` is delegated to an external
library (pandas/numpy), so the pipeline is parametrized by the `sorter`;
`SortsByEnergyDesc` and `InsertionSortOnSmall` record what that collaborator
documents and implements. -/
noncomputable def process_and_save_top_regions (sorter : List RankRow → List RankRow)
    (weather : ℝ → ℝ → ℝ × ℝ) (day : ℕ)
    (today now : String) (regions : List RegionEntry) (prev : Option (List RankRow)) :
    List RankRow × Option (List RankRow) :=
  let decl := declination_angle day
  let results := regions.map (computeRow weather decl today now)
  if results.isEmpty then (results, prev)
  else
    let top := (sorter results).take 10
    (top, some top)

/-- A stub weather service: every coordinate gets `(25 °C, 0 % cloud)`. -/
noncomputable def weather0 : ℝ → ℝ → ℝ × ℝ := fun _ _ => (25, 0)

/-- A one-entry catalog used to instantiate theorems. -/
def region1 : RegionEntry := { region := "A", latitude := 10, longitude := 20 }

/-- A 15-entry catalog used to instantiate the ranking theorem. -/
def regions15 : List RegionEntry :=
  [⟨"R1", 8, 77⟩, ⟨"R2", 9, 78⟩, ⟨"R3", 10, 76⟩, ⟨"R4", 11, 75⟩, ⟨"R5", 12, 79⟩,
   ⟨"R6", 13, 80⟩, ⟨"R7", 17, 78⟩, ⟨"R8", 19, 72⟩, ⟨"R9", 21, 79⟩, ⟨"R10", 23, 77⟩,
   ⟨"R11", 26, 75⟩, ⟨"R12", 28, 77⟩, ⟨"R13", 31, 74⟩, ⟨"R14", 32, 76⟩, ⟨"R15", 34, 74⟩]

/-- Names for a 17-entry catalog: one more region than numpy's insertion-sort
cutoff. -/
def names17 : List String :=
  ["R1", "R2", "R3", "R4", "R5", "R6", "R7", "R8", "R9", "R10", "R11", "R12", "R13",
   "R14", "R15", "R16", "R17"]

/-- A 17-entry catalog whose regions all share one coordinate, so every
computed row carries the same energy (all ties). -/
def regions17 : List RegionEntry :=
  names17.map (fun nm => { region := nm, latitude := 10, longitude := 76 })

/-- The energy every row of `regions17` gets under the stub weather service
on day 80. -/
noncomputable def tieEnergy : ℝ :=
  (computeRow weather0 (declination_angle 80) "d" "t"
    { region := "R1", latitude := 10, longitude := 76 }).energy

/-- A snapshot row standing for previously persisted content. -/
noncomputable def prevRow : RankRow :=
  { region := "Old", date := "d", time := "t", temp := 0, cloud := 0, intensity := 0,
    daylight := 0, energy := 0 }

/-- A raw catalog row with a non-numeric latitude. -/
def badRow : RawRow := { region := some "X", latitude := some "abc", longitude := some "7" }

/-- A float parser that accepts nothing (enough to exhibit a failing parse). -/
def parse0 : String → Option ℚ := fun _ => none

theorem roundHalfEven_of_lt {α : Type} [LinearOrderedField α] [FloorRing α] {x : α} {f : ℤ}
    (hf : ⌊x⌋ = f) (h : x - f < 1 / 2) : roundHalfEven x = f := by
  unfold roundHalfEven
  rw [hf, if_pos h]

theorem roundHalfEven_of_gt {α : Type} [LinearOrderedField α] [FloorRing α] {x : α} {f : ℤ}
    (hf : ⌊x⌋ = f) (h : 1 / 2 < x - f) : roundHalfEven x = f + 1 := by
  unfold roundHalfEven
  rw [hf, if_neg (by linarith), if_pos h]

theorem roundHalfEven_intCast {α : Type} [LinearOrderedField α] [FloorRing α] (m : ℤ) :
    roundHalfEven ((m : α)) = m :=
  roundHalfEven_of_lt (Int.floor_intCast m) (by norm_num)

theorem floor_le_roundHalfEven {α : Type} [LinearOrderedField α] [FloorRing α] (x : α) :
    ⌊x⌋ ≤ roundHalfEven x := by
  unfold roundHalfEven
  split_ifs <;> omega

theorem roundHalfEven_le_floor_add_one {α : Type} [LinearOrderedField α] [FloorRing α] (x : α) :
    roundHalfEven x ≤ ⌊x⌋ + 1 := by
  unfold roundHalfEven
  split_ifs <;> omega

theorem roundHalfEven_mono {α : Type} [LinearOrderedField α] [FloorRing α] {x y : α}
    (h : x ≤ y) : roundHalfEven x ≤ roundHalfEven y := by
  rcases lt_or_eq_of_le (Int.floor_le_floor h) with hf | hf
  · calc roundHalfEven x ≤ ⌊x⌋ + 1 := roundHalfEven_le_floor_add_one x
      _ ≤ ⌊y⌋ := by omega
      _ ≤ roundHalfEven y := floor_le_roundHalfEven y
  · have hc : ((⌊x⌋ : ℤ) : α) = ((⌊y⌋ : ℤ) : α) := by exact_mod_cast hf
    have h2 : x - (⌊x⌋ : α) ≤ y - (⌊y⌋ : α) := by rw [hc]; linarith
    unfold roundHalfEven
    split_ifs <;> first | omega | linarith

theorem roundHalfEven_zero {α : Type} [LinearOrderedField α] [FloorRing α] :
    roundHalfEven (0 : α) = 0 := by
  simpa using roundHalfEven_intCast (α := α) 0

theorem roundHalfEven_nonpos {α : Type} [LinearOrderedField α] [FloorRing α] {x : α}
    (h : x ≤ 0) : roundHalfEven x ≤ 0 := by
  have := roundHalfEven_mono h
  rwa [roundHalfEven_zero] at this

theorem roundHalfEven_le_neg_one {α : Type} [LinearOrderedField α] [FloorRing α] {x : α}
    (h : x < -(1 / 2)) : roundHalfEven x ≤ -1 := by
  have hfl : ((⌊x⌋ : ℤ) : α) ≤ x := Int.floor_le x
  unfold roundHalfEven
  split_ifs with h1 h2 h3
  · have hx : ((⌊x⌋ : ℤ) : α) < 0 := by linarith
    have : ⌊x⌋ < 0 := by exact_mod_cast hx
    omega
  · have hx : ((⌊x⌋ : ℤ) : α) < -1 := by linarith
    have : ⌊x⌋ < -1 := by exact_mod_cast hx
    omega
  · have hx : ((⌊x⌋ : ℤ) : α) < 0 := by linarith
    have : ⌊x⌋ < 0 := by exact_mod_cast hx
    omega
  · have he : x - (⌊x⌋ : α) = 1 / 2 := le_antisymm (not_lt.1 h2) (not_lt.1 h1)
    have hx : ((⌊x⌋ : ℤ) : α) < -1 := by linarith
    have : ⌊x⌋ < -1 := by exact_mod_cast hx
    omega

theorem roundTo_mono {α : Type} [LinearOrderedField α] [FloorRing α] (n : ℕ) {x y : α}
    (h : x ≤ y) : roundTo n x ≤ roundTo n y := by
  unfold roundTo
  have hp : (0 : α) < 10 ^ n := by positivity
  have h1 : roundHalfEven (x * 10 ^ n) ≤ roundHalfEven (y * 10 ^ n) :=
    roundHalfEven_mono (mul_le_mul_of_nonneg_right h (by positivity))
  have h2 : ((roundHalfEven (x * 10 ^ n) : ℤ) : α) ≤ ((roundHalfEven (y * 10 ^ n) : ℤ) : α) := by
    exact_mod_cast h1
  gcongr

theorem solar_intensity_antitone {α : Type} [LinearOrderedField α] [FloorRing α] {a b : α}
    (h : a ≤ b) : solar_intensity b ≤ solar_intensity a := by
  unfold solar_intensity
  apply roundTo_mono
  simp only [SOLAR_CONSTANT]
  push_cast
  linarith

theorem solar_intensity_natCast (n : ℕ) :
    solar_intensity ((n : ℚ)) = ((136700 - 1367 * (n : ℤ) : ℤ) : ℚ) / 100 := by
  unfold solar_intensity roundTo
  rw [show (SOLAR_CONSTANT : ℚ) * (1 - (n : ℚ) / 100) * 10 ^ 2 =
      (((136700 - 1367 * (n : ℤ)) : ℤ) : ℚ) by simp only [SOLAR_CONSTANT]; push_cast; ring]
  rw [roundHalfEven_intCast]
  norm_num

theorem solar_intensity_zero : solar_intensity (0 : ℚ) = 1367 := by
  unfold solar_intensity roundTo SOLAR_CONSTANT
  rw [show ((1367 : ℕ) : ℚ) * (1 - 0 / 100) * 10 ^ 2 = ((136700 : ℤ) : ℚ) by norm_num]
  rw [roundHalfEven_intCast]
  norm_num

theorem solar_intensity_hundred : solar_intensity (100 : ℚ) = 0 := by
  unfold solar_intensity roundTo SOLAR_CONSTANT
  rw [show ((1367 : ℕ) : ℚ) * (1 - 100 / 100) * 10 ^ 2 = ((0 : ℤ) : ℚ) by norm_num]
  rw [roundHalfEven_intCast]
  norm_num

theorem solar_intensity_eps : solar_intensity ((1 : ℚ) / 10000) = 1367 := by
  unfold solar_intensity roundTo SOLAR_CONSTANT
  rw [roundHalfEven_of_gt (f := 136699) (by norm_num [Int.floor_eq_iff]) (by norm_num)]
  norm_num

theorem solar_intensity_twohundred : solar_intensity (200 : ℚ) = -1367 := by
  unfold solar_intensity roundTo SOLAR_CONSTANT
  rw [show ((1367 : ℕ) : ℚ) * (1 - 200 / 100) * 10 ^ 2 = ((-136700 : ℤ) : ℚ) by norm_num]
  rw [roundHalfEven_intCast]
  norm_num

theorem solar_intensity_just_above_100 : solar_intensity ((1000001 : ℚ) / 10000) = 0 := by
  unfold solar_intensity roundTo SOLAR_CONSTANT
  rw [roundHalfEven_of_gt (f := -1) (by norm_num [Int.floor_eq_iff]) (by norm_num)]
  norm_num

theorem calculate_energy_neg_example : calculate_energy (-1367 : ℚ) 12 = -5905 / 100 := by
  unfold calculate_energy roundTo
  rw [roundHalfEven_of_gt (f := -5906) (by norm_num [Int.floor_eq_iff]) (by norm_num)]
  norm_num

theorem energyFilter_nil (e : ℝ) : energyFilter e [] = [] := rfl

theorem energyFilter_cons (e : ℝ) (a : RankRow) (l : List RankRow) :
    energyFilter e (a :: l) =
      if a.energy = e then a :: energyFilter e l else energyFilter e l := by
  simp only [energyFilter, List.filter_cons]
  split_ifs with h1 h2 h3 <;> first | rfl | simp_all

theorem energyFilter_orderedInsert (e : ℝ) (a : RankRow) :
    ∀ l : List RankRow, energyFilter e (List.orderedInsert rE a l) =
      if a.energy = e then a :: energyFilter e l else energyFilter e l
  | [] => by rw [List.orderedInsert_nil, energyFilter_cons, energyFilter_nil]
  | b :: l => by
    rw [List.orderedInsert]
    by_cases hr : rE a b
    · rw [if_pos hr, energyFilter_cons]
    · rw [if_neg hr, energyFilter_cons, energyFilter_orderedInsert e a l, energyFilter_cons]
      by_cases ha : a.energy = e
      · have hab : a.energy < b.energy := not_le.1 hr
        have hbne : ¬ b.energy = e := by rw [← ha]; exact (ne_of_gt hab)
        rw [if_neg hbne, if_pos ha, if_pos ha, if_neg hbne]
      · rw [if_neg ha, if_neg ha]

theorem energyFilter_npySmallSort (e : ℝ) : ∀ l : List RankRow,
    energyFilter e (npySmallSort l) = energyFilter e l
  | [] => rfl
  | a :: l => by
    have hstep : npySmallSort (a :: l) = List.orderedInsert rE a (npySmallSort l) := rfl
    rw [hstep, energyFilter_orderedInsert, energyFilter_npySmallSort e l, energyFilter_cons]

theorem npySmallSort_sorts : SortsByEnergyDesc npySmallSort :=
  ⟨fun l => List.perm_insertionSort rE l, fun l => List.sorted_insertionSort rE l⟩

theorem npySmallSort_small : InsertionSortOnSmall npySmallSort :=
  fun _ _ => rfl

theorem pyStrOr_blankToNone (a : Option String) (b : String) :
    pyStrOr (blankToNone a) b = pyStrOr a b := by
  cases a with
  | none => rfl
  | some s =>
    by_cases hs : s = "" <;> simp [blankToNone, pyStrOr, hs]

theorem pyStrOr_ne_of_ne {a : Option String} {b : String} (h : b ≠ "") : pyStrOr a b ≠ "" := by
  cases a with
  | none => exact h
  | some s =>
    simp only [pyStrOr]
    split_ifs with hs
    · exact h
    · exact hs

theorem process_top_regions_nil (s : List RankRow → List RankRow)
    (weather : ℝ → ℝ → ℝ × ℝ) (day : ℕ) (today now : String)
    (prev : Option (List RankRow)) :
    process_and_save_top_regions s weather day today now [] prev = ([], prev) := rfl

theorem process_top_regions_of_ne_nil (s : List RankRow → List RankRow)
    (weather : ℝ → ℝ → ℝ × ℝ) (day : ℕ) (today now : String)
    {regions : List RegionEntry} (h : regions ≠ []) (prev : Option (List RankRow)) :
    process_and_save_top_regions s weather day today now regions prev =
      ((s (regions.map (computeRow weather (declination_angle day) today now))).take 10,
        some ((s
          (regions.map (computeRow weather (declination_angle day) today now))).take 10)) := by
  unfold process_and_save_top_regions
  cases regions with
  | nil => exact absurd rfl h
  | cons r rs => rfl

theorem energyFilter_sublist {l1 l2 : List RankRow} (e : ℝ) (h : List.Sublist l1 l2) :
    List.Sublist (energyFilter e l1) (energyFilter e l2) :=
  h.filter _

theorem orderedInsert_of_tied {e : ℝ} {a : RankRow} (ha : a.energy = e) {l : List RankRow}
    (hl : ∀ x ∈ l, x.energy = e) : List.orderedInsert rE a l = a :: l := by
  cases l with
  | nil => rfl
  | cons b l2 =>
    have hab : rE a b := by
      show b.energy ≤ a.energy
      rw [ha, hl b (List.mem_cons_self b l2)]
    rw [List.orderedInsert, if_pos hab]

theorem insertionSort_of_all_tied {e : ℝ} : ∀ l : List RankRow, (∀ x ∈ l, x.energy = e) →
    List.insertionSort rE l = l
  | [] => fun _ => rfl
  | a :: l => fun h => by
    rw [List.insertionSort,
      insertionSort_of_all_tied l (fun x hx => h x (List.mem_cons_of_mem a hx)),
      orderedInsert_of_tied (h a (List.mem_cons_self a l))
        (fun x hx => h x (List.mem_cons_of_mem a hx))]

theorem npySmallSort_of_all_tied {e : ℝ} {l : List RankRow} (h : ∀ x ∈ l, x.energy = e) :
    npySmallSort l = l :=
  insertionSort_of_all_tied l h

theorem energyFilter_of_all_tied {e : ℝ} : ∀ l : List RankRow, (∀ x ∈ l, x.energy = e) →
    energyFilter e l = l
  | [] => fun _ => rfl
  | a :: l => fun h => by
    rw [energyFilter_cons, if_pos (h a (List.mem_cons_self a l)),
      energyFilter_of_all_tied l (fun x hx => h x (List.mem_cons_of_mem a hx))]

theorem revTieSort_sorts : SortsByEnergyDesc revTieSort := by
  constructor
  · intro l
    unfold revTieSort
    split_ifs
    · exact List.perm_insertionSort rE l
    · exact (List.perm_insertionSort rE l.reverse).trans (List.reverse_perm l)
  · intro l
    unfold revTieSort
    split_ifs
    · exact List.sorted_insertionSort rE l
    · exact List.sorted_insertionSort rE l.reverse

theorem revTieSort_small : InsertionSortOnSmall revTieSort := by
  intro l h
  unfold revTieSort
  rw [if_pos h]

/-- C1 counterexample: the program delegates the sort to pandas/numpy, whose
default `kind='quicksort'` is documented unstable and is insertion sort only
below 17 elements.  `revTieSort` satisfies everything that contract and the
small-input behavior promise, yet on the 17-region all-tied catalog
`regions17` the snapshot's equal-energy rows do not retain catalog order
(they come out reversed), refuting the claim's unrestricted stability; a hand
trace of numpy's introsort on 17 tied elements likewise scrambles the order
via its median-of-3 pivot swaps. -/
theorem ranked_snapshot_stability_cex :
    SortsByEnergyDesc revTieSort ∧ InsertionSortOnSmall revTieSort ∧
    ¬ List.Sublist
      (energyFilter tieEnergy
        (process_and_save_top_regions revTieSort weather0 80 "d" "t" regions17 none).1)
      (energyFilter tieEnergy
        (regions17.map (computeRow weather0 (declination_angle 80) "d" "t"))) := by
  refine ⟨revTieSort_sorts, revTieSort_small, ?_⟩
  have hne17 : regions17 ≠ [] := by simp [regions17, names17]
  have hall : ∀ x ∈ regions17.map (computeRow weather0 (declination_angle 80) "d" "t"),
      x.energy = tieEnergy := by
    intro x hx
    rw [regions17, List.map_map] at hx
    rcases List.mem_map.1 hx with ⟨nm, -, rfl⟩
    rfl
  have hlen : (regions17.map (computeRow weather0 (declination_angle 80) "d" "t")).length
      = 17 := by
    simp [regions17, names17]
  have hrev : revTieSort (regions17.map (computeRow weather0 (declination_angle 80) "d" "t")) =
      (regions17.map (computeRow weather0 (declination_angle 80) "d" "t")).reverse := by
    unfold revTieSort
    rw [if_neg (by rw [hlen]; norm_num)]
    exact npySmallSort_of_all_tied (fun x hx => hall x (List.mem_reverse.1 hx))
  have hproc : (process_and_save_top_regions revTieSort weather0 80 "d" "t" regions17 none).1 =
      ((regions17.map (computeRow weather0 (declination_angle 80) "d" "t")).reverse).take 10 := by
    rw [process_top_regions_of_ne_nil revTieSort weather0 80 "d" "t" hne17 none, hrev]
  have htake : ∀ x ∈
      ((regions17.map (computeRow weather0 (declination_angle 80) "d" "t")).reverse).take 10,
      x.energy = tieEnergy :=
    fun x hx => hall x (List.mem_reverse.1 (List.take_subset _ _ hx))
  rw [hproc, energyFilter_of_all_tied _ htake, energyFilter_of_all_tied _ hall]
  intro hsub
  have hmap := hsub.map (fun row => row.region)
  rw [List.map_take, List.map_reverse] at hmap
  have hnames : (regions17.map (computeRow weather0 (declination_angle 80) "d" "t")).map
      (fun row => row.region) = names17 := by
    rw [regions17, List.map_map, List.map_map]
    exact List.map_id' names17
  rw [hnames] at hmap
  exact absurd hmap (by decide)

/-- C1 amended: for every sorter meeting the pandas/numpy documented contract
(`SortsByEnergyDesc`: an energy-descending permutation) together with the
small-input implementation fact (`InsertionSortOnSmall`), the snapshot has
length at most 10 (exactly 10 for a catalog of 15 or more regions) and is
sorted by `energy` descending (`rE`); for catalogs of at most 16 regions —
where numpy's quicksort is insertion sort, covering the spec's 15-region
scenario — the sort is stable: for every energy value the snapshot's rows of
that energy form a sublist of the per-catalog results in catalog order. -/
theorem ranked_snapshot_top10_sorted_stable (s : List RankRow → List RankRow)
    (hs : SortsByEnergyDesc s) (hsmall : InsertionSortOnSmall s)
    (weather : ℝ → ℝ → ℝ × ℝ) (day : ℕ)
    (today now : String) (regions : List RegionEntry) (prev : Option (List RankRow)) :
    (process_and_save_top_regions s weather day today now regions prev).1.length ≤ 10 ∧
    (15 ≤ regions.length →
      (process_and_save_top_regions s weather day today now regions prev).1.length = 10) ∧
    List.Pairwise rE (process_and_save_top_regions s weather day today now regions prev).1 ∧
    (regions.length ≤ 16 → ∀ e : ℝ,
      List.Sublist
        (energyFilter e (process_and_save_top_regions s weather day today now regions prev).1)
        (energyFilter e (regions.map (computeRow weather (declination_angle day) today now)))) := by
  cases regions with
  | nil =>
    rw [process_top_regions_nil]
    refine ⟨by simp, ?_, List.Pairwise.nil, ?_⟩
    · intro h15
      simp at h15
    · intro _ e
      exact List.nil_sublist _
  | cons r rs =>
    have hne : (r :: rs : List RegionEntry) ≠ [] := by simp
    rw [process_top_regions_of_ne_nil s weather day today now hne prev]
    have hmaplen :
        ((r :: rs).map (computeRow weather (declination_angle day) today now)).length =
          (r :: rs).length := List.length_map _ _
    have hslen :
        (s ((r :: rs).map (computeRow weather (declination_angle day) today now))).length =
          ((r :: rs).map (computeRow weather (declination_angle day) today now)).length :=
      (hs.1 _).length_eq
    refine ⟨?_, ?_, ?_, ?_⟩
    · simp [List.length_take]
    · intro h15
      simp only [List.length_take, hslen, hmaplen]
      simp at h15 ⊢
      omega
    · exact List.Pairwise.sublist (List.take_sublist 10 _) (hs.2 _)
    · intro h16 e
      have hlen16 :
          ((r :: rs).map (computeRow weather (declination_angle day) today now)).length ≤ 16 := by
        rw [hmaplen]
        exact h16
      rw [hsmall _ hlen16]
      have h1 := energyFilter_sublist e (List.take_sublist 10
        (npySmallSort ((r :: rs).map (computeRow weather (declination_angle day) today now))))
      rw [energyFilter_npySmallSort] at h1
      exact h1

/-- Witness for C1: with the sorter the program actually gets on a 15-region
catalog (insertion sort), the snapshot has length exactly 10. -/
theorem ranked_snapshot_top10_sorted_stable_witness :
    (process_and_save_top_regions npySmallSort weather0 80 "2026-03-21" "12:00:00" regions15
      none).1.length = 10 :=
  (ranked_snapshot_top10_sorted_stable npySmallSort npySmallSort_sorts npySmallSort_small
    weather0 80 "2026-03-21" "12:00:00" regions15 none).2.1 (by decide)

/-- C4 counterexample: over an empty catalog the source skips `df.to_csv`
(the write sits inside `if not df.empty`), so a previously persisted snapshot
survives instead of being replaced by the new, empty snapshot. -/
theorem snapshot_not_replaced_on_empty_catalog :
    (process_and_save_top_regions npySmallSort weather0 1 "d" "t" [] (some [prevRow])).2 =
      some [prevRow] ∧
    some [prevRow] ≠ some ([] : List RankRow) :=
  ⟨rfl, by simp⟩

/-- C4 amended: an empty catalog yields an empty snapshot (no error) but
leaves the persisted snapshot untouched; for a nonempty catalog the persisted
snapshot is fully replaced by the new top-10, independent of its previous
content (no merge). -/
theorem snapshot_replacement_behavior :
    (∀ (s : List RankRow → List RankRow) (w : ℝ → ℝ → ℝ × ℝ) (day : ℕ) (td tm : String)
      (prev : Option (List RankRow)),
      process_and_save_top_regions s w day td tm [] prev = ([], prev)) ∧
    (∀ (s : List RankRow → List RankRow) (w : ℝ → ℝ → ℝ × ℝ) (day : ℕ) (td tm : String)
      (regions : List RegionEntry)
      (prev prev' : Option (List RankRow)), regions ≠ [] →
      (process_and_save_top_regions s w day td tm regions prev).2 =
        some ((process_and_save_top_regions s w day td tm regions prev).1) ∧
      (process_and_save_top_regions s w day td tm regions prev).2 =
        (process_and_save_top_regions s w day td tm regions prev').2) := by
  constructor
  · intro s w day td tm prev
    exact process_top_regions_nil s w day td tm prev
  · intro s w day td tm regions prev prev' h
    rw [process_top_regions_of_ne_nil s w day td tm h prev,
      process_top_regions_of_ne_nil s w day td tm h prev']
    exact ⟨rfl, rfl⟩

/-- Witness for C4: a one-region catalog persists exactly the returned snapshot. -/
theorem snapshot_replacement_behavior_witness :
    (process_and_save_top_regions npySmallSort weather0 80 "d" "t" [region1] none).2 =
      some ((process_and_save_top_regions npySmallSort weather0 80 "d" "t" [region1] none).1) :=
  (snapshot_replacement_behavior.2 npySmallSort weather0 80 "d" "t" [region1] none none
    (by simp)).1

/-- C3: whenever the weather `try` body fails (any `FailKind`: transport
error, timeout, non-success status, malformed payload), the gateway returns
exactly the fallback sample `(25, 0)`; by its return type it always returns a
plain sample and never propagates an error. -/
theorem weather_failure_yields_fallback (res : Fetch WeatherPayload) (k : FailKind)
    (h : fetch_weather_body res = Except.error k) :
    get_weather_data_cached res = (25, 0) := by
  unfold get_weather_data_cached
  rw [h]

/-- Witness for C3: a forced transport failure yields the fallback sample. -/
theorem weather_failure_yields_fallback_witness :
    get_weather_data_cached (Fetch.failure FailKind.transport) = (25, 0) :=
  weather_failure_yields_fallback (Fetch.failure FailKind.transport) FailKind.transport rfl

/-- C5: the cloud cover produced by the weather gateway on a success payload
is the arithmetic mean of the hourly readings; an empty readings list, or an
absent one (which Python defaults to `[0]`), gives cloud cover 0. -/
theorem cloud_cover_is_mean :
    (∀ (t : Option ℚ) (l : List ℚ), l ≠ [] →
      (get_weather_data_cached (Fetch.success ⟨t, some l⟩)).2 = l.sum / l.length) ∧
    (∀ t : Option ℚ, (get_weather_data_cached (Fetch.success ⟨t, some []⟩)).2 = 0) ∧
    (∀ t : Option ℚ, (get_weather_data_cached (Fetch.success ⟨t, none⟩)).2 = 0) := by
  refine ⟨?_, ?_, ?_⟩
  · intro t l h
    have he : l.isEmpty = false := by simpa [List.isEmpty_iff] using h
    simp [get_weather_data_cached, fetch_weather_body, he]
  · intro t
    rfl
  · intro t
    simp [get_weather_data_cached, fetch_weather_body]

/-- Witness for C5: readings `[10, 20]` give their arithmetic mean. -/
theorem cloud_cover_is_mean_witness :
    (get_weather_data_cached (Fetch.success ⟨some 25, some [10, 20]⟩)).2 =
      ([10, 20] : List ℚ).sum / (([10, 20] : List ℚ).length : ℚ) :=
  cloud_cover_is_mean.1 (some 25) [10, 20] (by simp)

/-- C6: region-name resolution prefers city, then town, then village, then
state; when none of the fields is present the result is `"Unknown"`, and any
failure of the fetch also yields `"Unknown"` (never a propagated error). -/
theorem region_name_preference_order :
    (∀ k : FailKind, get_region_name_from_coords_cached (Fetch.failure k) = "Unknown") ∧
    (∀ (a : Address) (c : String), a.city = some c → c ≠ "" →
      get_region_name_from_coords_cached (Fetch.success a) = c) ∧
    (∀ (a : Address) (t : String), a.city = none → a.town = some t → t ≠ "" →
      get_region_name_from_coords_cached (Fetch.success a) = t) ∧
    (∀ (a : Address) (v : String), a.city = none → a.town = none → a.village = some v →
      v ≠ "" → get_region_name_from_coords_cached (Fetch.success a) = v) ∧
    (∀ (a : Address) (s : String), a.city = none → a.town = none → a.village = none →
      a.state = some s → s ≠ "" → get_region_name_from_coords_cached (Fetch.success a) = s) ∧
    (∀ a : Address, a.city = none → a.town = none → a.village = none → a.state = none →
      get_region_name_from_coords_cached (Fetch.success a) = "Unknown") := by
  refine ⟨fun k => rfl, ?_, ?_, ?_, ?_, ?_⟩
  · intro a c h1 h2
    simp [get_region_name_from_coords_cached, fetch_region_body, pyStrOr, h1, h2]
  · intro a t h1 h2 h3
    simp [get_region_name_from_coords_cached, fetch_region_body, pyStrOr, h1, h2, h3]
  · intro a v h1 h2 h3 h4
    simp [get_region_name_from_coords_cached, fetch_region_body, pyStrOr, h1, h2, h3, h4]
  · intro a s h1 h2 h3 h4 h5
    simp [get_region_name_from_coords_cached, fetch_region_body, pyStrOr, h1, h2, h3, h4, h5]
  · intro a h1 h2 h3 h4
    simp [get_region_name_from_coords_cached, fetch_region_body, pyStrOr, h1, h2, h3, h4]

/-- Witness for C6: an address with both `city` and `state` resolves to the
city value. -/
theorem region_name_preference_order_witness :
    get_region_name_from_coords_cached
      (Fetch.success ⟨some "Mumbai", none, none, some "MH"⟩) = "Mumbai" :=
  region_name_preference_order.2.1 ⟨some "Mumbai", none, none, some "MH"⟩ "Mumbai" rfl
    (by decide)

/-- C9: a present-but-empty candidate field is treated the same as an absent
one (the `or` chain falls through on the falsy empty string), an address with
city `""` and state `"X"` resolves to `"X"`, and the gateway never returns the
empty string. -/
theorem blank_fields_fall_through :
    (∀ a : Address, get_region_name_from_coords_cached (Fetch.success a) =
      get_region_name_from_coords_cached (Fetch.success
        ⟨blankToNone a.city, blankToNone a.town, blankToNone a.village,
          blankToNone a.state⟩)) ∧
    get_region_name_from_coords_cached (Fetch.success ⟨some "", none, none, some "X"⟩)
      = "X" ∧
    (∀ res : Fetch Address, get_region_name_from_coords_cached res ≠ "") := by
  refine ⟨?_, by decide, ?_⟩
  · intro a
    simp only [get_region_name_from_coords_cached, fetch_region_body, pyStrOr_blankToNone]
  · intro res
    cases res with
    | failure k => exact show ("Unknown" : String) ≠ "" by decide
    | success a =>
      simp only [get_region_name_from_coords_cached, fetch_region_body]
      exact pyStrOr_ne_of_ne (pyStrOr_ne_of_ne (pyStrOr_ne_of_ne (pyStrOr_ne_of_ne
        (by decide))))

/-- C8: `read_regions` returns the empty list (not an error) when the catalog
file does not exist, and a row whose parse fails (missing field or
non-numeric coordinate) is silently skipped without affecting the rest. -/
theorem read_regions_skips_bad_rows :
    (∀ p : String → Option ℚ, read_regions p none = []) ∧
    (∀ (p : String → Option ℚ) (pre post : List RawRow) (row : RawRow),
      parseRow p row = none →
      read_regions p (some (pre ++ row :: post)) = read_regions p (some (pre ++ post))) := by
  constructor
  · intro p
    rfl
  · intro p pre post row h
    simp only [read_regions]
    rw [List.filterMap_append, List.filterMap_append, List.filterMap_cons, h]

/-- Witness for C8: a row with a non-numeric latitude is skipped. -/
theorem read_regions_skips_bad_rows_witness :
    read_regions parse0 (some ([] ++ badRow :: [])) = read_regions parse0 (some ([] ++ [])) :=
  read_regions_skips_bad_rows.2 parse0 [] [] badRow rfl

/-- C2 counterexample: at latitude 45° and declination −45° the tangent
product has absolute value exactly 1 (so not `> 1`), yet `daylight_hours`
returns 0, which is not strictly between 0 and 24. -/
theorem daylight_hours_boundary_cex :
    ¬ 1 < |Real.tan (radians 45) * Real.tan (radians (-45))| ∧
    daylight_hours 45 (-45) = 0 ∧
    ¬ (0 < daylight_hours 45 (-45) ∧ daylight_hours 45 (-45) < 24) := by
  have ht : Real.tan (radians 45) = 1 := by
    rw [show radians 45 = Real.pi / 4 by unfold radians; ring, Real.tan_pi_div_four]
  have htm : Real.tan (radians (-45)) = -1 := by
    rw [show radians (-45) = -(Real.pi / 4) by unfold radians; ring, Real.tan_neg,
      Real.tan_pi_div_four]
  have h0 : daylight_hours 45 (-45) = 0 := by
    unfold daylight_hours
    rw [ht, htm, if_neg (by norm_num)]
    rw [show -((1 : ℝ) * -1) = 1 by norm_num, Real.arccos_one]
    ring
  refine ⟨?_, h0, ?_⟩
  · rw [ht, htm]
    norm_num
  · rw [h0]
    norm_num

/-- C2 amended: `daylight_hours` returns 0 when `|tan(lat)·tan(decl)| > 1`,
a value strictly between 0 and 24 when `|tan(lat)·tan(decl)| < 1`, and at the
boundary `|tan(lat)·tan(decl)| = 1` exactly 0 or exactly 24. -/
theorem daylight_hours_range (lat decl : ℝ) :
    (1 < |Real.tan (radians lat) * Real.tan (radians decl)| →
      daylight_hours lat decl = 0) ∧
    (|Real.tan (radians lat) * Real.tan (radians decl)| < 1 →
      0 < daylight_hours lat decl ∧ daylight_hours lat decl < 24) ∧
    (|Real.tan (radians lat) * Real.tan (radians decl)| = 1 →
      daylight_hours lat decl = 0 ∨ daylight_hours lat decl = 24) := by
  refine ⟨?_, ?_, ?_⟩
  · intro h
    unfold daylight_hours
    rcases lt_abs.1 h with h' | h'
    · rw [if_pos (Or.inl (by linarith))]
    · rw [if_pos (Or.inr (by linarith))]
  · intro h
    have habs := abs_lt.1 h
    unfold daylight_hours
    rw [if_neg (by push_neg; constructor <;> linarith)]
    have h1 : 0 < Real.arccos (-(Real.tan (radians lat) * Real.tan (radians decl))) :=
      Real.arccos_pos.2 (by linarith [habs.1])
    have h2 : Real.arccos (-(Real.tan (radians lat) * Real.tan (radians decl))) < Real.pi :=
      lt_of_le_of_ne (Real.arccos_le_pi _)
        (fun he => by have := Real.arccos_eq_pi.1 he; linarith [habs.2])
    have hπ := Real.pi_pos
    constructor
    · positivity
    · rw [div_lt_iff₀ (by norm_num : (0:ℝ) < 15), div_lt_iff₀ hπ]
      linarith
  · intro h
    rcases (abs_eq (by norm_num : (0:ℝ) ≤ 1)).1 h with h1 | h1
    · right
      unfold daylight_hours
      rw [h1, if_neg (by norm_num)]
      rw [show -(1 : ℝ) = (-1 : ℝ) by norm_num, Real.arccos_neg_one]
      field_simp
      ring
    · left
      unfold daylight_hours
      rw [h1, if_neg (by norm_num)]
      rw [show -(-1 : ℝ) = (1 : ℝ) by norm_num, Real.arccos_one]
      ring

/-- Witness for C2: at the equator with zero declination the tangent product
is 0 and the daylight duration is strictly between 0 and 24. -/
theorem daylight_hours_range_witness :
    0 < daylight_hours 0 0 ∧ daylight_hours 0 0 < 24 :=
  (daylight_hours_range 0 0).2.1 (by norm_num [radians, Real.tan_zero])

/-- C7 counterexample: strict decrease fails under 2-decimal rounding — the
distinct cloud covers 0 and 1/10000 (both in `[0, 100]`) give the same
rounded intensity 1367.0. -/
theorem solar_intensity_not_strictly_decreasing :
    (0 : ℚ) < 1 / 10000 ∧ ((1 : ℚ) / 10000) ≤ 100 ∧
    ¬ solar_intensity ((1 : ℚ) / 10000) < solar_intensity (0 : ℚ) := by
  refine ⟨by norm_num, by norm_num, ?_⟩
  rw [solar_intensity_eps, solar_intensity_zero]
  exact lt_irrefl _

/-- C7 amended: `solar_intensity 0 = 1367`, `solar_intensity 100 = 0`,
the function is weakly decreasing in cloud cover (the 2-decimal rounding
makes it constant on small intervals), and strictly decreasing on integer
cloud covers in `[0, 100]`. -/
theorem solar_intensity_endpoints_monotone :
    solar_intensity (0 : ℚ) = 1367 ∧
    solar_intensity (100 : ℚ) = 0 ∧
    (∀ a b : ℚ, a ≤ b → solar_intensity b ≤ solar_intensity a) ∧
    (∀ a b : ℕ, a < b → b ≤ 100 → solar_intensity ((b : ℚ)) < solar_intensity ((a : ℚ))) := by
  refine ⟨solar_intensity_zero, solar_intensity_hundred,
    fun a b h => solar_intensity_antitone h, ?_⟩
  intro a b hab _
  rw [solar_intensity_natCast, solar_intensity_natCast]
  have hz : (a : ℤ) < (b : ℤ) := by exact_mod_cast hab
  have hi : (136700 - 1367 * (b : ℤ)) < 136700 - 1367 * (a : ℤ) := by linarith
  have hc : (((136700 - 1367 * (b : ℤ)) : ℤ) : ℚ) < (((136700 - 1367 * (a : ℤ)) : ℤ) : ℚ) := by
    exact_mod_cast hi
  gcongr

/-- Witness for C7: intensity at integer cloud cover 100 is strictly below
intensity at 0. -/
theorem solar_intensity_endpoints_monotone_witness :
    solar_intensity (((100 : ℕ)) : ℚ) < solar_intensity (((0 : ℕ)) : ℚ) :=
  solar_intensity_endpoints_monotone.2.2.2 0 100 (by norm_num) (by norm_num)

/-- C10 counterexample: cloud cover 100.0001 exceeds 100, yet the rounded
intensity is 0, not strictly negative (the unrounded value −0.001367 rounds
to 0). -/
theorem solar_intensity_not_negative_just_above_100 :
    (100 : ℚ) < 1000001 / 10000 ∧ ¬ solar_intensity ((1000001 : ℚ) / 10000) < 0 := by
  refine ⟨by norm_num, ?_⟩
  rw [solar_intensity_just_above_100]
  exact lt_irrefl _

/-- C10 amended: no clamping — intensity is ≤ 0 for every cloud cover above
100, strictly negative once the cover exceeds 100 + 1/2734 (when the
unrounded value drops below −0.005), `solar_intensity 200 = −1367`, and
`calculate_energy` consequently returns a negative energy. -/
theorem solar_intensity_no_clamp :
    (∀ c : ℚ, 100 < c → solar_intensity c ≤ 0) ∧
    (∀ c : ℚ, 100 + 1 / 2734 < c → solar_intensity c < 0) ∧
    solar_intensity (200 : ℚ) = -1367 ∧
    calculate_energy (solar_intensity (200 : ℚ)) 12 < 0 := by
  refine ⟨?_, ?_, solar_intensity_twohundred, ?_⟩
  · intro c hc
    unfold solar_intensity roundTo
    have harg : (SOLAR_CONSTANT : ℚ) * (1 - c / 100) * 10 ^ 2 ≤ 0 := by
      simp only [SOLAR_CONSTANT]
      push_cast
      linarith
    have h1 := roundHalfEven_nonpos harg
    have h2 : ((roundHalfEven ((SOLAR_CONSTANT : ℚ) * (1 - c / 100) * 10 ^ 2) : ℤ) : ℚ) ≤ 0 := by
      exact_mod_cast h1
    have h3 : (0 : ℚ) < 10 ^ 2 := by norm_num
    exact div_nonpos_of_nonpos_of_nonneg h2 (le_of_lt h3)
  · intro c hc
    unfold solar_intensity roundTo
    have harg : (SOLAR_CONSTANT : ℚ) * (1 - c / 100) * 10 ^ 2 < -(1 / 2) := by
      simp only [SOLAR_CONSTANT]
      push_cast
      linarith
    have h1 := roundHalfEven_le_neg_one harg
    have h2 : ((roundHalfEven ((SOLAR_CONSTANT : ℚ) * (1 - c / 100) * 10 ^ 2) : ℤ) : ℚ) ≤ -1 := by
      exact_mod_cast h1
    apply div_neg_of_neg_of_pos
    · linarith
    · norm_num
  · rw [solar_intensity_twohundred, calculate_energy_neg_example]
    norm_num

/-- Witness for C10: cloud cover 150 gives a strictly negative intensity. -/
theorem solar_intensity_no_clamp_witness : solar_intensity (150 : ℚ) < 0 :=
  solar_intensity_no_clamp.2.1 150 (by norm_num)
